import Mathlib

/-!
Verification of the heuristic analytics core of the `agileflow` repository
(`ghost_scrum_master`): pattern-based ticket discovery (`core/board_scanner.py`),
debt-signal scanning (`core/debt_sentinel.py`), velocity forecasting
(`core/velocity.py`) and composite health scoring (`core/predictive.py`).

The Python modules are shallowly embedded: dictionaries become structures,
iteration becomes folds over lists, `float` arithmetic is modelled with exact
rationals (`ℚ`), and the small fixed regular expressions used by the code are
modelled by hand-written character-level scanners that implement exactly the
patterns appearing in the source (including word boundaries, greedy runs and
the left-to-right non-overlapping semantics of `re.findall` / `re.sub`).
Scanners advance at least one character per step, so they are written with a
fuel argument initialised to the input length; this keeps them structurally
recursive (hence kernel-evaluable) while agreeing with the unbounded scan.
All text handling assumes ASCII input, which is the domain of every claim;
Python's Unicode-aware classes (`\w`, `\d`, `str.lower`) coincide with the
ASCII classes modelled here on that domain.
-/

namespace AgileFlow

/-! ## String and character helpers (Python semantics) -/

/-- ASCII model of the Python regex class `\s` (also used by `str.strip`):
space, tab, newline, carriage return, vertical tab, form feed. -/
def pyIsSpace (c : Char) : Bool :=
  c = ' ' || c = '\t' || c = '\n' || c = '\r' || c = '\x0b' || c = '\x0c'

/-- ASCII model of the Python regex class `\w`: letters, digits, underscore. -/
def isWordChar (c : Char) : Bool :=
  c.isAlpha || c.isDigit || c = '_'

/-- Helper for `strContains`: does `needle` occur as a contiguous sublist? -/
def subListOccurs (needle : List Char) : List Char → Bool
  | [] => needle.isEmpty
  | c :: rest => needle.isPrefixOf (c :: rest) || subListOccurs needle rest

/-- Python's substring test `needle in hay`. -/
def strContains (hay needle : String) : Bool :=
  subListOccurs needle.toList hay.toList

/-- Python's `str.isdigit()` (ASCII model): nonempty and all digits. -/
def pyIsDigitStr (s : String) : Bool :=
  !s.toList.isEmpty && s.toList.all Char.isDigit

/-- Python's `str.strip()` (ASCII whitespace model). -/
def pyStrip (s : String) : String :=
  String.mk (((s.toList.dropWhile pyIsSpace).reverse.dropWhile pyIsSpace).reverse)

/-- Python's `str.lower()` (ASCII model), character by character.  (Core's
`String.toLower` is defined through byte-position recursion that the kernel
cannot unfold; this list-based equivalent evaluates.) -/
def pyLower (s : String) : String := String.mk (s.toList.map Char.toLower)

/-- Python's `str.startswith(pre)`. -/
def pyStartsWith (s pre : String) : Bool := pre.toList.isPrefixOf s.toList

/-- Python's string slice `s[:n]`. -/
def pyTake (s : String) (n : Nat) : String := String.mk (s.toList.take n)

/-- Python's `' '.join(parts)`, as a character list. -/
def joinWithSpace : List String → List Char
  | [] => []
  | [s] => s.toList
  | s :: rest => s.toList ++ ' ' :: joinWithSpace rest

/-- Python's `s.split(sep)` for a one-character separator: splitting the empty
string gives `[""]`, and a trailing separator yields a trailing `""`. -/
def splitOnChar (sep : Char) : List Char → List (List Char)
  | [] => [[]]
  | c :: rest =>
    match splitOnChar sep rest with
    | [] => [[]]
    | h :: t => if c = sep then [] :: h :: t else (c :: h) :: t

/-- Order-preserving deduplication keeping first occurrences.  Models the
conversion of an accumulated collection to a duplicate-free list.  (CPython's
`list(set(...))` produces the same set of elements in an unspecified,
hash-dependent order; every property proved below about a deduplicated list
is order-insensitive, so this deterministic model is faithful.) -/
def dedupAux [DecidableEq α] (seen : List α) : List α → List α
  | [] => []
  | a :: as => if a ∈ seen then dedupAux seen as else a :: dedupAux (a :: seen) as

/-- See `dedupAux`. -/
def dedupFirst [DecidableEq α] (l : List α) : List α := dedupAux [] l

/-! ## Regex scanners for `TICKET_PATTERNS` (board_scanner.py, lines 12-17)

```
TICKET_PATTERNS = [
    r'\b([A-Z]{2,10}-\d+)\b',       # JIRA/Linear: TICKET-123, PROJ-456
    r'#(\d+)\b',                      # GitHub Issues: #42
    r'\bGH-(\d+)\b',                  # GitHub: GH-123
    r'\bFIX-(\d+)\b',                 # Custom: FIX-001
]
```
Each matcher takes the character preceding the current position (`none` at the
start of the string, used to decide the leading `\b`) and the remaining input;
it returns the captured group, the last character it consumed and the rest of
the input.  A trailing `\b` after a `\d+` run holds exactly when the maximal
digit run is followed by a non-word character or the end of the input
(backtracking inside `\d+` cannot help, because a digit is a word character).
Similarly `[A-Z]{2,10}` followed by `-` succeeds exactly on a maximal
uppercase run of length 2 to 10, since shorter backtracked prefixes are
followed by an uppercase letter, not `-`. -/

/-- The `\b` test at the current position, which is about to match a word character:
holds when the previous character is absent or a non-word character. -/
def boundaryBefore : Option Char → Bool
  | none => true
  | some c => !isWordChar c

/-- Trailing `\b` right after a word character: the next character must be
absent or a non-word character. -/
def boundaryAfter : List Char → Bool
  | [] => true
  | c :: _ => !isWordChar c

/-- Matcher for `\b([A-Z]{2,10}-\d+)\b` at the current position. -/
def matchJira (prev : Option Char) (l : List Char) :
    Option (String × Option Char × List Char) :=
  if !boundaryBefore prev then none else
  let ups := l.takeWhile Char.isUpper
  let rest1 := l.dropWhile Char.isUpper
  if ups.length < 2 || 10 < ups.length then none else
  match rest1 with
  | '-' :: rest2 =>
    let ds := rest2.takeWhile Char.isDigit
    let rest3 := rest2.dropWhile Char.isDigit
    if ds.isEmpty then none
    else if !boundaryAfter rest3 then none
    else some (String.mk (ups ++ '-' :: ds), some (ds.getLastD '0'), rest3)
  | _ => none

/-- Matcher for `#(\d+)\b` at the current position (no leading `\b`);
the captured group is the digit run only. -/
def matchIssue (l : List Char) : Option (String × Option Char × List Char) :=
  match l with
  | '#' :: rest =>
    let ds := rest.takeWhile Char.isDigit
    let rest2 := rest.dropWhile Char.isDigit
    if ds.isEmpty then none
    else if !boundaryAfter rest2 then none
    else some (String.mk ds, some (ds.getLastD '0'), rest2)
  | _ => none

/-- Matcher for `\b<tag>(\d+)\b` at the current position, where `tag` is a
literal such as `GH-` or `FIX-`; the captured group is the digit run only. -/
def matchTag (tag : List Char) (prev : Option Char) (l : List Char) :
    Option (String × Option Char × List Char) :=
  if !boundaryBefore prev then none else
  if tag.isPrefixOf l then
    let rest := l.drop tag.length
    let ds := rest.takeWhile Char.isDigit
    let rest2 := rest.dropWhile Char.isDigit
    if ds.isEmpty then none
    else if !boundaryAfter rest2 then none
    else some (String.mk ds, some (ds.getLastD '0'), rest2)
  else none

/-- Left-to-right, non-overlapping scan (the semantics of `re.findall`):
try the matcher at each position, skipping one character on failure and
resuming after a match on success.  Every successful match consumes at least
one character, so fuel equal to the input length never runs out. -/
def scanAux (m : Option Char → List Char → Option (String × Option Char × List Char)) :
    Nat → Option Char → List Char → List String
  | 0, _, _ => []
  | _ + 1, _, [] => []
  | fuel + 1, prev, c :: cs =>
    match m prev (c :: cs) with
    | some (cap, last, rest) => cap :: scanAux m fuel last rest
    | none => scanAux m fuel (some c) cs

/-- Model of `re.findall(pattern, s)` for one of the matchers above. -/
def scanPattern
    (m : Option Char → List Char → Option (String × Option Char × List Char))
    (s : String) : List String :=
  scanAux m s.length none s.toList

/-- Model of `re.findall` of the four ticket patterns, in source order. -/
def findJira (s : String) : List String := scanPattern matchJira s

/-- See `findJira`. -/
def findIssue (s : String) : List String := scanPattern (fun _ => matchIssue) s

/-- See `findJira`. -/
def findGH (s : String) : List String := scanPattern (matchTag ('G' :: 'H' :: '-' :: [])) s

/-- See `findJira`. -/
def findFIX (s : String) : List String := scanPattern (matchTag ('F' :: 'I' :: 'X' :: '-' :: [])) s

/-- Model of `BoardScanner._extract_tickets` (board_scanner.py, lines 59-70): run the
four patterns in order, normalize digit-only matches with a `#` prefix, and
deduplicate (`list(set(tickets))`, see `dedupFirst` for the order caveat). -/
def extract_tickets (message : String) : List String :=
  let raw := findJira message ++ findIssue message ++ findGH message ++ findFIX message
  dedupFirst (raw.map (fun m => if pyIsDigitStr m then "#" ++ m else m))

/-! ## Data model -/

/-- A commit record as consumed by the core (`{hash, author, date, message, diff}`).
Fields the Python code reads with `commit.get(key, '')` default to `""` in the
inputs we consider, so all fields are modelled as present. -/
structure Commit where
  hash : String
  author : String
  date : String
  message : String
  diff : String
deriving DecidableEq

/-- A board ticket in the shape produced by `BoardScanner._build_board`
(external boards use the same `id`/`status` fields read by the analysers). -/
structure Ticket where
  id : String
  title : String
  status : String
  assignee : String
  contributors : List String
  commit_count : Nat
  first_seen : String
  last_seen : String
deriving DecidableEq

/-! ## BoardScanner (board_scanner.py) -/

/-- Completion signals (board_scanner.py, lines 106-107). -/
def done_signals : List String :=
  ["fix:", "fixes", "fixed", "resolve", "resolved", "close", "closed", "complete", "done"]

/-- Feature-completion signals (line 112). -/
def feat_signals : List String := ["feat:", "feature", "implement", "add:"]

/-- Work-in-progress signals (line 117). -/
def wip_signals : List String := ["wip", "draft", "partial", "progress", "refactor"]

/-- Model of `BoardScanner._infer_status` (lines 101-121): lowercase the space-joined
messages, then test the signal groups in order. -/
def infer_status (messages : List String) : String :=
  let all_text := pyLower (String.mk (joinWithSpace messages))
  if done_signals.any (fun s => strContains all_text s) then "Done"
  else if feat_signals.any (fun s => strContains all_text s) then "Done"
  else if wip_signals.any (fun s => strContains all_text s) then "In Progress"
  else "In Progress"

/-- The alternatives of `^(fix|feat|chore|refactor|docs|test|ci|style|perf|build):\s*`
(line 131), in source order. -/
def conv_tags : List String :=
  ["fix", "feat", "chore", "refactor", "docs", "test", "ci", "style", "perf", "build"]

/-- Model of `re.sub(r'^(fix|...|build):\s*', '', msg, flags=IGNORECASE)`: the pattern is
anchored, no alternative is a prefix of another, and `\s*` after the colon is a
deterministic greedy whitespace run, so a single case-insensitive prefix test
per alternative is exact. -/
def stripConvTag (msg : String) : String :=
  match conv_tags.find? (fun t => (t ++ ":").toList.isPrefixOf (pyLower msg).toList) with
  | some t => String.mk ((msg.toList.drop (t.length + 1)).dropWhile pyIsSpace)
  | none => msg

/-- One attempted match of `\[?<id>\]?\s*` at the current position (`re.sub`,
line 133; `re.escape(id)` makes the id a literal).  `\[?` backtracks: if
consuming `[` makes the literal id fail, it is retried without. `\]?` and
`\s*` are followed by nothing, so greedy consumption is deterministic. -/
def stripIdAt (id : List Char) (l : List Char) : Option (List Char) :=
  let core : List Char → Option (List Char) := fun l2 =>
    if id.isPrefixOf l2 then
      let r := l2.drop id.length
      let r2 := match r with
        | ']' :: t => t
        | _ => r
      some (r2.dropWhile pyIsSpace)
    else none
  match l with
  | '[' :: t =>
    (match core t with
     | some r => some r
     | none => core l)
  | _ => core l

/-- The `re.sub` scan replacing every occurrence of `\[?<id>\]?\s*` with the
empty string (fuel as in `scanAux`; a match consumes at least the nonempty id). -/
def stripIdScan (id : List Char) : Nat → List Char → List Char
  | 0, l => l
  | _ + 1, [] => []
  | fuel + 1, c :: cs =>
    match stripIdAt id (c :: cs) with
    | some rest => stripIdScan id fuel rest
    | none => c :: stripIdScan id fuel cs

/-- Model of `BoardScanner._infer_title` (lines 123-136). -/
def infer_title (ticket_id : String) (messages : List String) : String :=
  match messages with
  | [] => "Ticket " ++ ticket_id
  | first_msg :: _ =>
    let cleaned := stripConvTag first_msg
    let cleaned2 := pyStrip (String.mk (stripIdScan ticket_id.toList cleaned.length cleaned.toList))
    if cleaned2 = "" then "Work on " ++ ticket_id else cleaned2

/-- The commits whose message references a given ticket id — exactly the
commits that append to `ticket_data[ticket_id]` in `discover_tickets`
(lines 39-55), in commit order. -/
def commits_for (commits : List Commit) (id : String) : List Commit :=
  commits.filter (fun c => id ∈ extract_tickets c.message)

/-- The accumulation `if not td['first_seen'] or date < td['first_seen']`
(line 52) folded over the associated commits' dates (initial value `None`;
`None` and `""` are both falsy). -/
def fold_first_seen (dates : List String) : Option String :=
  dates.foldl
    (fun acc date =>
      match acc with
      | none => some date
      | some f => if f = "" || date < f then some date else some f)
    none

/-- The accumulation `if not td['last_seen'] or date > td['last_seen']` (line 54). -/
def fold_last_seen (dates : List String) : Option String :=
  dates.foldl
    (fun acc date =>
      match acc with
      | none => some date
      | some f => if f = "" || f < date then some date else some f)
    none

/-- One entry of `_build_board` (lines 79-95) for a discovered ticket id.
`data['authors']` is a Python set built by successive insertion; it is
modelled as the first-occurrence-ordered deduplicated author list (its
iteration order in CPython is unspecified; no claim depends on it). -/
def build_ticket (commits : List Commit) (id : String) : Ticket :=
  let assoc := commits_for commits id
  let authors := dedupFirst (assoc.map (fun c => c.author))
  let messages := assoc.map (fun c => c.message)
  { id := id
    title := infer_title id messages
    status := infer_status messages
    assignee := authors.headD "unassigned"
    contributors := authors
    commit_count := assoc.length
    first_seen := (fold_first_seen (assoc.map (fun c => c.date))).getD ""
    last_seen := (fold_last_seen (assoc.map (fun c => c.date))).getD "" }

/-- Stable descending insertion by `last_seen` — the effect of
`board.sort(key=lambda x: x.get('last_seen', ''), reverse=True)` (line 98):
descending by key, ties kept in original order. -/
def insertByLastSeenDesc (t : Ticket) : List Ticket → List Ticket
  | [] => [t]
  | u :: us =>
    if decide (u.last_seen < t.last_seen) then t :: u :: us
    else u :: insertByLastSeenDesc t us

/-- See `insertByLastSeenDesc`. -/
def sortByLastSeenDesc (l : List Ticket) : List Ticket :=
  l.foldl (fun acc t => insertByLastSeenDesc t acc) []

/-- Model of `BoardScanner.discover_tickets` (lines 26-57): group commits by extracted
ticket id (ids in first-discovery order, the insertion order of the
`defaultdict`), build one ticket per id, sort by recency. -/
def discover_tickets (commits : List Commit) : List Ticket :=
  let ids := dedupFirst (commits.flatMap (fun c => extract_tickets c.message))
  sortByLastSeenDesc (ids.map (build_ticket commits))

/-! ## DebtSentinel (debt_sentinel.py) -/

/-- Model of `DebtSentinel.DEBT_SIGNALS` (lines 15-22), in source (insertion) order. -/
def DEBT_SIGNALS : List (String × Nat) :=
  [("todo", 2), ("hotfix", 3), ("workaround", 3), ("temp", 1), ("deprecated", 2), ("hardcode", 2)]

/-- A debt item (lines 45-51 / 59-65).  `src` is the Python `source` field,
`sha` the truncated `hash` field. -/
structure DebtItem where
  signal : String
  weight : Nat
  src : String
  author : String
  sha : String
deriving DecidableEq

/-- Message-level debt scan of one commit (lines 43-51): one item per signal
contained in the lowercased message, in signal-table order. -/
def msg_debt_items (c : Commit) : List DebtItem :=
  DEBT_SIGNALS.filterMap
    (fun sw =>
      if strContains (pyLower c.message) sw.1 then
        some ⟨sw.1, sw.2, c.message, c.author, pyTake c.hash 7⟩
      else none)

/-- The added lines of a diff (lines 54-55): lines starting with `+` but not `+++`. -/
def added_lines (diff : String) : List String :=
  ((splitOnChar '\n' diff.toList).map String.mk).filter
    (fun l => pyStartsWith l "+" && !(pyStartsWith l "+++"))

/-- Inline debt scan of one added line (lines 56-65). -/
def line_debt_items (c : Commit) (line : String) : List DebtItem :=
  DEBT_SIGNALS.filterMap
    (fun sw =>
      if strContains (pyLower line) sw.1 then
        some ⟨sw.1, sw.2, "New code in " ++ pyTake c.hash 7, c.author, pyTake c.hash 7⟩
      else none)

/-- All debt items one commit contributes, in emission order: message-level
items, then one batch per added line. -/
def commit_debt_items (c : Commit) : List DebtItem :=
  msg_debt_items c ++ (added_lines c.diff).flatMap (line_debt_items c)

/-- The list `debt_items` accumulated by `analyze_diffs` over the whole batch (line 30). -/
def debt_items (history : List Commit) : List DebtItem :=
  history.flatMap commit_debt_items

/-- Matcher for `[+-]{3}\s[ab]/(.+)` at the current position: three `+`/`-`
characters, one whitespace character, `a` or `b`, `/`, then a greedy nonempty
run of non-newline characters as the captured group. -/
def matchHeader : List Char → Option (String × List Char)
  | a :: b :: c :: w :: x :: s :: rest =>
    if (a = '+' || a = '-') && (b = '+' || b = '-') && (c = '+' || c = '-')
        && pyIsSpace w && (x = 'a' || x = 'b') && s = '/' then
      let cap := rest.takeWhile (fun ch => ch != '\n')
      if cap.isEmpty then none
      else some (String.mk cap, rest.dropWhile (fun ch => ch != '\n'))
    else none
  | _ => none

/-- Model of `re.findall(r'[+-]{3}\s[ab]/(.+)', diff)` (line 38), with fuel as in `scanAux`. -/
def scanHeadersAux : Nat → List Char → List String
  | 0, _ => []
  | _ + 1, [] => []
  | fuel + 1, c :: cs =>
    match matchHeader (c :: cs) with
    | some (f, rest) => f :: scanHeadersAux fuel rest
    | none => scanHeadersAux fuel cs

/-- The `files_changed` list extracted from one diff (line 38). -/
def files_changed (diff : String) : List String :=
  scanHeadersAux diff.length diff.toList

/-- All header matches across the batch; `file_hotspots` is the multiset of
these (a `Counter`), modelled by `hotspot_count` / `hotspot_files`. -/
def all_changed_files (history : List Commit) : List String :=
  history.flatMap (fun c => files_changed c.diff)

/-- The counter value `file_hotspots[f]` after `analyze_diffs` (lines 38-40). -/
def hotspot_count (history : List Commit) (f : String) : Nat :=
  (all_changed_files history).count f

/-- The keys of the `file_hotspots` counter, in insertion order. -/
def hotspot_files (history : List Commit) : List String :=
  dedupFirst (all_changed_files history)

/-- Model of `sum(item['weight'] for item in debt_items)` (line 72). -/
def total_weight (history : List Commit) : Nat :=
  ((debt_items history).map (fun i => i.weight)).sum

/-- Model of `sum(1 for count in hotspots.values() if count >= 3) * 5` (line 75). -/
def hotspot_penalty (history : List Commit) : Nat :=
  ((hotspot_files history).countP (fun f => hotspot_count history f ≥ 3)) * 5

/-- Model of `DebtSentinel.calculate_debt_score` (lines 69-77), score component. -/
def calculate_debt_score (history : List Commit) : Nat :=
  total_weight history + hotspot_penalty history

/-- A generated refactor-ticket suggestion (lines 88-94 / 100-106); `ty` is
the Python `type` field. -/
structure RefactorTicket where
  title : String
  priority : String
  description : String
  ty : String
deriving DecidableEq

/-- The REFACTOR tickets for critical hotspots (lines 85-94): one per file
with change count ≥ 2, in counter-key insertion order. -/
def refactor_tickets_hotspots (history : List Commit) : List RefactorTicket :=
  ((hotspot_files history).filter (fun f => hotspot_count history f ≥ 2)).map
    (fun f =>
      let c := hotspot_count history f
      { title := "Refactor: " ++ f ++ " (changed " ++ toString c ++ "x recently)"
        priority := if c ≥ 3 then "High" else "Medium"
        description := "This file has been modified " ++ toString c
          ++ " times in recent commits. Consider refactoring to reduce churn and improve maintainability."
        ty := "REFACTOR" })

/-- The signals of all debt items, in emission order; `Counter(...)` over it
iterates its keys in first-occurrence order. -/
def signal_list (history : List Commit) : List String :=
  (debt_items history).map (fun i => i.signal)

/-- The counter value `signal_counts[s]` (line 97). -/
def signal_count (history : List Commit) (s : String) : Nat :=
  (signal_list history).count s

/-- The lookup `self.DEBT_SIGNALS[signal]` (line 102). -/
def signal_weight (s : String) : Nat :=
  ((DEBT_SIGNALS.find? (fun sw => sw.1 == s)).map (fun sw => sw.2)).getD 0

/-- The TECH_DEBT tickets from debt signals (lines 96-106): one per signal
with occurrence count ≥ 2. -/
def refactor_tickets_signals (history : List Commit) : List RefactorTicket :=
  ((dedupFirst (signal_list history)).filter (fun s => signal_count history s ≥ 2)).map
    (fun s =>
      let c := signal_count history s
      { title := "Tech Debt: Address \"" ++ s ++ "\" markers (" ++ toString c ++ " occurrences)"
        priority := if signal_weight s ≥ 3 then "High" else "Medium"
        description := "Found " ++ toString c ++ " instances of \"" ++ s
          ++ "\" patterns in recent commits. These should be resolved to prevent debt accumulation."
        ty := "TECH_DEBT" })

/-- Model of `DebtSentinel.generate_refactor_tickets` (lines 79-108): the debt score and
the REFACTOR tickets followed by the TECH_DEBT tickets. -/
def generate_refactor_tickets (history : List Commit) : Nat × List RefactorTicket :=
  (calculate_debt_score history,
   refactor_tickets_hotspots history ++ refactor_tickets_signals history)

/-! ## Timestamp parsing (velocity.py line 26, predictive.py line 43)

`datetime.strptime(date, "%Y-%m-%dT%H:%M:%SZ")` is modelled by a hand-written
parser following CPython's `_strptime` regexes: `%Y` is exactly four digits;
`%m` is `1[0-2]|0[1-9]|[1-9]`; `%d` is `3[01]|[12]\d|0[1-9]|[1-9]`; `%H` is
`2[0-3]|[0-1]\d|\d`; `%M`/`%S` are `[0-5]\d|\d`; literals match
case-insensitively; the whole string must be consumed; the parsed fields must
form a valid `datetime` (year ≥ 1, day within the month, Gregorian leap
rule).  `%S` additionally admits `60`/`61`, which the `datetime` constructor
then rejects — observationally identical to a parse failure, since both
callers wrap the call in a bare `except: pass`.  Each numeric field's regex
alternatives are mutually exclusive given the following literal, so the
deterministic greedy choice below is exact. -/

/-- Parsed timestamp fields (the parts of `datetime` the core reads). -/
structure PyDateTime where
  year : Nat
  month : Nat
  day : Nat
  hour : Nat
  minute : Nat
  second : Nat
deriving DecidableEq

/-- Numeric value of an ASCII digit. -/
def digitVal (c : Char) : Nat := c.toNat - '0'.toNat

/-- Field `%Y`: exactly four digits. -/
def parseYear4 : List Char → Option (Nat × List Char)
  | a :: b :: c :: d :: rest =>
    if a.isDigit && b.isDigit && c.isDigit && d.isDigit then
      some (digitVal a * 1000 + digitVal b * 100 + digitVal c * 10 + digitVal d, rest)
    else none
  | _ => none

/-- Field `%m`: `1[0-2]|0[1-9]|[1-9]`. -/
def parseMonth : List Char → Option (Nat × List Char)
  | [] => none
  | '1' :: b :: rest =>
    if '0' ≤ b && b ≤ '2' then some (10 + digitVal b, rest) else some (1, b :: rest)
  | '0' :: b :: rest =>
    if '1' ≤ b && b ≤ '9' then some (digitVal b, rest) else none
  | c :: rest =>
    if '1' ≤ c && c ≤ '9' then some (digitVal c, rest) else none

/-- Field `%d`: `3[01]|[12]\d|0[1-9]|[1-9]`. -/
def parseDay : List Char → Option (Nat × List Char)
  | [] => none
  | '3' :: b :: rest =>
    if b = '0' || b = '1' then some (30 + digitVal b, rest) else some (3, b :: rest)
  | '0' :: b :: rest =>
    if '1' ≤ b && b ≤ '9' then some (digitVal b, rest) else none
  | c :: b :: rest =>
    if ('1' ≤ c && c ≤ '2') && b.isDigit then some (digitVal c * 10 + digitVal b, rest)
    else if '1' ≤ c && c ≤ '9' then some (digitVal c, b :: rest)
    else none
  | [c] => if '1' ≤ c && c ≤ '9' then some (digitVal c, []) else none

/-- Field `%H`: `2[0-3]|[0-1]\d|\d`. -/
def parseHour : List Char → Option (Nat × List Char)
  | [] => none
  | '2' :: b :: rest =>
    if '0' ≤ b && b ≤ '3' then some (20 + digitVal b, rest) else some (2, b :: rest)
  | c :: b :: rest =>
    if (c = '0' || c = '1') && b.isDigit then some (digitVal c * 10 + digitVal b, rest)
    else if c.isDigit then some (digitVal c, b :: rest)
    else none
  | [c] => if c.isDigit then some (digitVal c, []) else none

/-- Fields `%M` and `%S`: `[0-5]\d|\d` (see the header comment about `60`/`61`). -/
def parseMinSec : List Char → Option (Nat × List Char)
  | [] => none
  | c :: b :: rest =>
    if ('0' ≤ c && c ≤ '5') && b.isDigit then some (digitVal c * 10 + digitVal b, rest)
    else if c.isDigit then some (digitVal c, b :: rest)
    else none
  | [c] => if c.isDigit then some (digitVal c, []) else none

/-- A literal of the format string (`strptime` compiles literals with
`re.IGNORECASE`, hence the lowercase comparison). -/
def parseLit (ch : Char) : List Char → Option (List Char)
  | c :: rest => if c.toLower = ch.toLower then some rest else none
  | [] => none

/-- Gregorian leap year (the `datetime` calendar). -/
def isLeapYear (y : Nat) : Bool :=
  y % 4 = 0 && (y % 100 ≠ 0 || y % 400 = 0)

/-- Days in a month of the proleptic Gregorian calendar. -/
def daysInMonth (y m : Nat) : Nat :=
  if m = 2 then (if isLeapYear y then 29 else 28)
  else if m = 4 || m = 6 || m = 9 || m = 11 then 30
  else 31

/-- Model of `datetime.strptime(s, "%Y-%m-%dT%H:%M:%SZ")`, returning `none` exactly when
the Python call raises (which both callers catch and ignore). -/
def strptimeISO (s : String) : Option PyDateTime := do
  let (y, r1) ← parseYear4 s.toList
  let r2 ← parseLit '-' r1
  let (mo, r3) ← parseMonth r2
  let r4 ← parseLit '-' r3
  let (d, r5) ← parseDay r4
  let r6 ← parseLit 'T' r5
  let (h, r7) ← parseHour r6
  let r8 ← parseLit ':' r7
  let (mi, r9) ← parseMinSec r8
  let r10 ← parseLit ':' r9
  let (se, r11) ← parseMinSec r10
  let r12 ← parseLit 'Z' r11
  if r12.isEmpty && 1 ≤ y && 1 ≤ d && d ≤ daysInMonth y mo then
    some ⟨y, mo, d, h, mi, se⟩
  else none

/-- Zero-padded two-digit rendering (for `strftime("%Y-%m-%d")`). -/
def pad2 (n : Nat) : String := if n < 10 then "0" ++ toString n else toString n

/-- Zero-padded four-digit rendering. -/
def pad4 (n : Nat) : String :=
  if n < 10 then "000" ++ toString n
  else if n < 100 then "00" ++ toString n
  else if n < 1000 then "0" ++ toString n
  else toString n

/-- Model of `dt.strftime("%Y-%m-%d")` (velocity.py line 27). -/
def dayKey (dt : PyDateTime) : String :=
  pad4 dt.year ++ "-" ++ pad2 dt.month ++ "-" ++ pad2 dt.day

/-! ## Python `round` on exact rationals

Python's `round(x, n)` rounds half to even.  The model works on the exact
rational value; the binary-float representation error of the Python original
(irrelevant to every claim, all of which are exact at 1-2 decimals or
independent of rounding) is out of scope of this embedding. -/

/-- Round half to even to the nearest integer. -/
def roundHalfEven (x : ℚ) : ℤ :=
  let f := ⌊x⌋
  if x - f < 1 / 2 then f
  else if 1 / 2 < x - f then f + 1
  else if f % 2 = 0 then f else f + 1

/-- Python `round(x, nd)`. -/
def pyRound (nd : Nat) (x : ℚ) : ℚ :=
  (roundHalfEven (x * 10 ^ nd) : ℚ) / 10 ^ nd

/-! ## VelocityForecaster (velocity.py) -/

/-- The `velocity` dictionary of `get_commit_velocity` (lines 34-39). -/
structure VelocityStats where
  total_commits : Nat
  avg_daily : ℚ
  daily_breakdown : List (String × Nat)
  author_breakdown : List (String × Nat)
deriving DecidableEq

/-- A `defaultdict(int)` increment: bump an existing key in place or append a
new key at the end (dict insertion order). -/
def bump (k : String) : List (String × Nat) → List (String × Nat)
  | [] => [(k, 1)]
  | (k2, v) :: rest => if k2 = k then (k2, v + 1) :: rest else (k2, v) :: bump k rest

/-- The loop body of `get_commit_velocity` (lines 24-31): commits with an
unparseable date are skipped (`except: pass`). -/
def velocityStep (acc : List (String × Nat) × List (String × Nat)) (c : Commit) :
    List (String × Nat) × List (String × Nat) :=
  match strptimeISO c.date with
  | some dt => (bump (dayKey dt) acc.1, bump c.author acc.2)
  | none => acc

/-- Model of `VelocityForecaster.get_commit_velocity` (lines 19-39).  `days_elapsed` is
an integer parameter (default 7). -/
def get_commit_velocity (history : List Commit) (days_elapsed : Int) : VelocityStats :=
  let acc := history.foldl velocityStep ([], [])
  { total_commits := history.length
    avg_daily := pyRound 2 ((history.length : ℚ) / ((max days_elapsed 1 : Int) : ℚ))
    daily_breakdown := acc.1
    author_breakdown := acc.2 }

/-- The `progress` dictionary of `get_ticket_progress` (lines 51-59). -/
structure Progress where
  total : Nat
  done : Nat
  in_progress : Nat
  todo : Nat
  completion_rate : ℚ
  expected_rate : ℚ
  on_track : Bool
deriving DecidableEq

/-- The local variable `completion_rate` (line 48):
`(done / total * 100) if total > 0 else 0`. -/
def completion_rate_raw (board : List Ticket) : ℚ :=
  if board.length > 0 then
    ((board.countP (fun t => t.status == "Done") : ℚ) / (board.length : ℚ)) * 100
  else 0

/-- The local variable `expected_rate` (line 49):
`(days_elapsed / sprint_days) * 100`.  (Python would raise on
`sprint_days == 0`; callers always pass a positive sprint length, and every
theorem below about this quantity assumes `0 < sprint_days`.) -/
def expected_rate_raw (sprint_days days_elapsed : Int) : ℚ :=
  ((days_elapsed : ℚ) / (sprint_days : ℚ)) * 100

/-- Model of `VelocityForecaster.get_ticket_progress` (lines 41-59); the reported rates
are rounded to one decimal, `on_track` compares the unrounded values. -/
def get_ticket_progress (board : List Ticket) (sprint_days days_elapsed : Int) : Progress :=
  { total := board.length
    done := board.countP (fun t => t.status == "Done")
    in_progress := board.countP (fun t => t.status == "In Progress")
    todo := board.countP (fun t => t.status == "Todo")
    completion_rate := pyRound 1 (completion_rate_raw board)
    expected_rate := pyRound 1 (expected_rate_raw sprint_days days_elapsed)
    on_track := decide (completion_rate_raw board ≥
      expected_rate_raw sprint_days days_elapsed * (7 / 10)) }

/-- Sprint risk classification. -/
inductive RiskLevel where
  | LOW
  | MEDIUM
  | HIGH
deriving DecidableEq

/-- The escalation order LOW < MEDIUM < HIGH, as a numeric rank. -/
def RiskLevel.rank : RiskLevel → Nat
  | .LOW => 0
  | .MEDIUM => 1
  | .HIGH => 2

/-- Rule 1 (lines 71-80): behind schedule forces HIGH (the source assigns
`"HIGH"` unconditionally inside the branch; the level entering the rule is
the initial LOW). -/
def rule1 (p : Progress) (r : RiskLevel) : RiskLevel :=
  if p.on_track then r else .HIGH

/-- The guard of rule 2 (lines 83-86): nonempty author breakdown with
`min/max < 0.3` (and `max > 0`). -/
def imbalanceCond (v : VelocityStats) : Bool :=
  match v.author_breakdown with
  | [] => false
  | (k, n) :: rest =>
    let vals := ((k, n) :: rest).map (fun p => p.2)
    let mx := vals.foldl max 0
    let mn := rest.foldl (fun a p => min a p.2) n
    decide (0 < mx) && decide ((mn : ℚ) / (mx : ℚ) < 3 / 10)

/-- Rule 2 (lines 83-94): workload imbalance raises LOW to MEDIUM. -/
def rule2 (v : VelocityStats) (r : RiskLevel) : RiskLevel :=
  if imbalanceCond v then (if r = .LOW then .MEDIUM else r) else r

/-- Rule 3 (lines 97-105): low cadence raises LOW to MEDIUM. -/
def rule3 (v : VelocityStats) (days_elapsed : Int) (r : RiskLevel) : RiskLevel :=
  if v.avg_daily < 1 ∧ 2 < days_elapsed then (if r = .LOW then .MEDIUM else r) else r

/-- Rule 4 (lines 108-116): WIP overhang raises LOW to MEDIUM. -/
def rule4 (p : Progress) (sprint_days days_elapsed : Int) (r : RiskLevel) : RiskLevel :=
  if p.done < p.in_progress ∧ (sprint_days : ℚ) * (1 / 2) < (days_elapsed : ℚ) then
    (if r = .LOW then .MEDIUM else r)
  else r

/-- The value of `risk_level` after rule 1 of `forecast_sprint`. -/
def risk_after_rule1 (board : List Ticket) (sprint_days days_elapsed : Int) : RiskLevel :=
  rule1 (get_ticket_progress board sprint_days days_elapsed) .LOW

/-- The value of `risk_level` after rule 2. -/
def risk_after_rule2 (history : List Commit) (board : List Ticket)
    (sprint_days days_elapsed : Int) : RiskLevel :=
  rule2 (get_commit_velocity history days_elapsed)
    (risk_after_rule1 board sprint_days days_elapsed)

/-- The value of `risk_level` after rule 3. -/
def risk_after_rule3 (history : List Commit) (board : List Ticket)
    (sprint_days days_elapsed : Int) : RiskLevel :=
  rule3 (get_commit_velocity history days_elapsed) days_elapsed
    (risk_after_rule2 history board sprint_days days_elapsed)

/-- The value of `risk_level` after rule 4 (the final classification). -/
def risk_after_rule4 (history : List Commit) (board : List Ticket)
    (sprint_days days_elapsed : Int) : RiskLevel :=
  rule4 (get_ticket_progress board sprint_days days_elapsed) sprint_days days_elapsed
    (risk_after_rule3 history board sprint_days days_elapsed)

/-- The result dictionary of `forecast_sprint` (lines 118-125).  The prose in
`risks` / `recommendations` is carried verbatim where it is a literal;
numbers interpolated from Python floats are rendered via `toString` of the
exact rational (a presentation detail no claim depends on). -/
structure ForecastResult where
  risk_level : RiskLevel
  velocity : VelocityStats
  progress : Progress
  risks : List String
  recommendations : List String
  days_remaining : Int
deriving DecidableEq

/-- Model of `VelocityForecaster.forecast_sprint` (lines 61-125). -/
def forecast_sprint (history : List Commit) (board : List Ticket)
    (sprint_days days_elapsed : Int) : ForecastResult :=
  let velocity := get_commit_velocity history days_elapsed
  let progress := get_ticket_progress board sprint_days days_elapsed
  let deficit := progress.expected_rate - progress.completion_rate
  let risks1 : List String :=
    if progress.on_track then [] else
      ["Sprint is behind schedule: " ++ toString progress.completion_rate ++ "% done vs "
        ++ toString progress.expected_rate ++ "% expected (" ++ toString (roundHalfEven deficit)
        ++ "% deficit)."]
  let recs1 : List String :=
    if progress.on_track then [] else
      ["Consider scope reduction: identify lowest-priority tickets to defer to next sprint."]
  let risks2 := risks1 ++ (if imbalanceCond velocity then
      ["Uneven workload detected: some team members have significantly fewer commits."] else [])
  let recs2 := recs1 ++ (if imbalanceCond velocity then
      ["Rebalance work assignments to prevent bottlenecks and reduce bus factor."] else [])
  let risks3 := risks2 ++ (if velocity.avg_daily < 1 ∧ 2 < days_elapsed then
      ["Low commit velocity: averaging " ++ toString velocity.avg_daily ++ " commits/day."] else [])
  let recs3 := recs2 ++ (if velocity.avg_daily < 1 ∧ 2 < days_elapsed then
      ["Check for blockers: team might be stuck on complex tasks or waiting on reviews."] else [])
  let risks4 := risks3 ++
    (if progress.done < progress.in_progress ∧ (sprint_days : ℚ) * (1 / 2) < (days_elapsed : ℚ) then
      ["Too many open items: " ++ toString progress.in_progress ++ " in progress vs "
        ++ toString progress.done ++ " done."] else [])
  let recs4 := recs3 ++
    (if progress.done < progress.in_progress ∧ (sprint_days : ℚ) * (1 / 2) < (days_elapsed : ℚ) then
      ["Focus on finishing active work before starting new tickets. Apply WIP limits."] else [])
  { risk_level := risk_after_rule4 history board sprint_days days_elapsed
    velocity := velocity
    progress := progress
    risks := risks4
    recommendations := recs4
    days_remaining := sprint_days - days_elapsed }

/-! ## PredictiveAgile (predictive.py) -/

/-- The loop of lines 17-22: an `In Progress` ticket is stalled when no commit
message contains its id as a substring. -/
def stalled_count (history : List Commit) (board : List Ticket) : Nat :=
  board.countP
    (fun t => t.status == "In Progress" && !(history.any (fun c => strContains c.message t.id)))

/-- The count `complexity_score` (lines 29-32): commits whose lowercased message
contains `"fix"`. -/
def fix_density_count (history : List Commit) : Nat :=
  history.countP (fun c => strContains (pyLower c.message) "fix")

/-- The count `late_commits` (lines 39-47): parseable timestamps with hour > 20;
unparseable dates are skipped. -/
def late_commit_count (history : List Commit) : Nat :=
  history.countP
    (fun c =>
      match strptimeISO c.date with
      | some dt => decide (20 < dt.hour)
      | none => false)

/-- Model of `PredictiveAgile.calculate_health_score` (predictive.py, lines 9-53).
The score is the exact rational value of the Python float computation. -/
def calculate_health_score (history : List Commit) (board : List Ticket) :
    ℚ × List String :=
  let total_tickets := board.length
  let stalled_tickets := stalled_count history board
  let score1 : ℚ :=
    if 0 < stalled_tickets then
      100 - ((stalled_tickets : ℚ) / (total_tickets : ℚ)) * 30
    else 100
  let alerts1 : List String :=
    if 0 < stalled_tickets then
      ["CRITICAL: " ++ toString stalled_tickets ++ " tickets appear stalled (no recent activity)."]
    else []
  let score2 := if 3 < fix_density_count history then score1 - 15 else score1
  let alerts2 := alerts1 ++
    (if 3 < fix_density_count history then
      ["WARNING: High frequency of bug fixes detected. Tech debt may be increasing."] else [])
  let score3 := if 2 < late_commit_count history then score2 - 10 else score2
  let alerts3 := alerts2 ++
    (if 2 < late_commit_count history then
      ["CAUTION: Late-night activity detected. Monitor team for burnout."] else [])
  (max 0 score3, alerts3)

/-! ## Shared helper lemmas -/

/-- Escalating LOW to MEDIUM never lowers the rank. -/
theorem escalate_rank_le (r : RiskLevel) :
    r.rank ≤ (if r = RiskLevel.LOW then RiskLevel.MEDIUM else r).rank := by
  cases r <;> simp [RiskLevel.rank]

/-- Rule 1 never lowers the rank. -/
theorem rank_le_rule1 (p : Progress) (r : RiskLevel) : r.rank ≤ (rule1 p r).rank := by
  unfold rule1; split_ifs
  · exact le_refl _
  · cases r <;> simp [RiskLevel.rank]

/-- Rule 2 never lowers the rank. -/
theorem rank_le_rule2 (v : VelocityStats) (r : RiskLevel) : r.rank ≤ (rule2 v r).rank := by
  unfold rule2
  by_cases h : imbalanceCond v = true
  · simp only [h, if_true]
    exact escalate_rank_le r
  · simp [h]

/-- Rule 3 never lowers the rank. -/
theorem rank_le_rule3 (v : VelocityStats) (de : Int) (r : RiskLevel) :
    r.rank ≤ (rule3 v de r).rank := by
  unfold rule3
  by_cases h : v.avg_daily < 1 ∧ 2 < de
  · rw [if_pos h]
    exact escalate_rank_le r
  · rw [if_neg h]

/-- Rule 4 never lowers the rank. -/
theorem rank_le_rule4 (p : Progress) (sd de : Int) (r : RiskLevel) :
    r.rank ≤ (rule4 p sd de r).rank := by
  unfold rule4
  by_cases h : p.done < p.in_progress ∧ (sd : ℚ) * (1 / 2) < (de : ℚ)
  · rw [if_pos h]
    exact escalate_rank_le r
  · rw [if_neg h]

/-- Rules 2-4 keep an already-HIGH level HIGH. -/
theorem rule2_high (v : VelocityStats) : rule2 v RiskLevel.HIGH = RiskLevel.HIGH := by
  simp [rule2]

/-- See `rule2_high`. -/
theorem rule3_high (v : VelocityStats) (de : Int) :
    rule3 v de RiskLevel.HIGH = RiskLevel.HIGH := by
  simp [rule3]

/-- See `rule2_high`. -/
theorem rule4_high (p : Progress) (sd de : Int) :
    rule4 p sd de RiskLevel.HIGH = RiskLevel.HIGH := by
  simp [rule4]

/-- Status inference can only produce the two statuses appearing in its
branches. -/
theorem infer_status_done_or_in_progress (messages : List String) :
    infer_status messages = "Done" ∨ infer_status messages = "In Progress" := by
  simp only [infer_status]
  split_ifs <;> simp

/-! ## C6 -/

/-- C6: for every commit batch and an empty board (`total_tickets == 0`), the
stalled-ticket rule contributes no deduction (and performs no division), so
the health score is exactly 100 minus the 15-point fix-density deduction when
it applies and the 10-point off-hours deduction when it applies; the
computation is total, so no error is raised. -/
theorem C6_empty_board_health_score (history : List Commit) :
    (calculate_health_score history []).1 =
      100 - (if 3 < fix_density_count history then (15 : ℚ) else 0)
          - (if 2 < late_commit_count history then (10 : ℚ) else 0) := by
  have hstall : stalled_count history [] = 0 := rfl
  simp only [calculate_health_score, hstall]
  split_ifs <;> norm_num

/-! ## C8 (corrected) -/

/-- C8 counterexample board: seven tickets, one of them `In Progress` with an
id no commit message mentions, six `Done`. -/
def c8_board : List Ticket :=
  ⟨"T-1", "", "In Progress", "", [], 0, "", ""⟩ ::
    List.replicate 6 ⟨"D-1", "", "Done", "", [], 0, "", ""⟩

/-- C8 counterexample: with an empty history and `c8_board`, the stalled
deduction is `(1/7)*30`, so the returned score is `670/7` — not an integer
(its denominator is 7), refuting the claim that the score is an integer. -/
theorem C8_counterexample :
    (calculate_health_score [] c8_board).1 = 670 / 7 ∧
    ((calculate_health_score [] c8_board).1).den ≠ 1 := by
  have hstall : stalled_count [] c8_board = 1 := by decide
  have hlen : c8_board.length = 7 := by decide
  have hfix : fix_density_count [] = 0 := by decide
  have hlate : late_commit_count [] = 0 := by decide
  have hval : (calculate_health_score [] c8_board).1 = 670 / 7 := by
    simp only [calculate_health_score, hstall, hlen, hfix, hlate]
    norm_num
  refine ⟨hval, ?_⟩
  rw [hval]
  norm_num [Rat.den]

/-- C8 (amended): the returned score is a number in [0, 100] — floored at 0
and never exceeding 100 since it only decreases from 100 — but it is a float
(here: an exact rational), not necessarily an integer, because the stalled
deduction `(stalled/total)*30` can be fractional. -/
theorem C8_health_score_range (history : List Commit) (board : List Ticket) :
    0 ≤ (calculate_health_score history board).1 ∧
    (calculate_health_score history board).1 ≤ 100 := by
  constructor
  · show (0 : ℚ) ≤ max 0 _
    exact le_max_left _ _
  · show max (0 : ℚ) _ ≤ 100
    refine max_le (by norm_num) ?_
    have hnn : (0 : ℚ) ≤
        ((stalled_count history board : ℚ) / (board.length : ℚ)) * 30 := by positivity
    split_ifs <;> linarith

/-! ## C5 -/

/-- C5 scenario board: 1 `Done` ticket among 10. -/
def c5_board : List Ticket :=
  ⟨"T-1", "", "Done", "", [], 0, "", ""⟩ ::
    List.replicate 9 ⟨"T-2", "", "In Progress", "", [], 0, "", ""⟩

/-- C5: `on_track` holds exactly when the raw completion rate
(`done/total*100`, 0 for an empty board) is at least 70% of the raw expected
rate (`days_elapsed/sprint_days*100`); and on the concrete scenario
`sprint_days=14, days_elapsed=7`, 1 Done of 10 tickets, the forecast reports
`completion_rate = 10.0`, `expected_rate = 50.0`, `on_track = False` and
`risk_level = HIGH`. -/
theorem C5_progress_contract :
    (∀ (board : List Ticket) (sd de : Int),
        (get_ticket_progress board sd de).on_track = true ↔
          completion_rate_raw board ≥ expected_rate_raw sd de * (7 / 10)) ∧
    completion_rate_raw [] = 0 ∧
    completion_rate_raw c5_board = 10 ∧
    expected_rate_raw 14 7 = 50 ∧
    (get_ticket_progress c5_board 14 7).completion_rate = 10 ∧
    (get_ticket_progress c5_board 14 7).expected_rate = 50 ∧
    (get_ticket_progress c5_board 14 7).on_track = false ∧
    (forecast_sprint [] c5_board 14 7).risk_level = RiskLevel.HIGH := by
  have hdone : c5_board.countP (fun t => t.status == "Done") = 1 := by decide
  have hlen : c5_board.length = 10 := by decide
  have hcomp : completion_rate_raw c5_board = 10 := by
    simp only [completion_rate_raw, hdone, hlen]
    norm_num
  have hexp : expected_rate_raw 14 7 = 50 := by
    simp only [expected_rate_raw]
    norm_num
  have hot : (get_ticket_progress c5_board 14 7).on_track = false := by
    simp only [get_ticket_progress, hcomp, hexp]
    norm_num
  refine ⟨fun board sd de => ?_, by simp [completion_rate_raw], hcomp, hexp, ?_, ?_, hot, ?_⟩
  · simp [get_ticket_progress]
  · simp only [get_ticket_progress, hcomp]
    norm_num [pyRound, roundHalfEven]
  · simp only [get_ticket_progress, hexp]
    norm_num [pyRound, roundHalfEven]
  · have h1 : risk_after_rule1 c5_board 14 7 = RiskLevel.HIGH := by
      unfold risk_after_rule1 rule1
      simp [hot]
    show risk_after_rule4 [] c5_board 14 7 = RiskLevel.HIGH
    unfold risk_after_rule4 risk_after_rule3 risk_after_rule2
    rw [h1, rule2_high, rule3_high, rule4_high]

/-! ## C4 -/

/-- C4: across the four risk rules, evaluated in their fixed order, the risk
level only moves upward in the order LOW < MEDIUM < HIGH (each step's rank is
at least the previous step's), and whenever `on_track` is false the final
risk level is HIGH. -/
theorem C4_risk_cascade (history : List Commit) (board : List Ticket) (sd de : Int) :
    RiskLevel.LOW.rank ≤ (risk_after_rule1 board sd de).rank ∧
    (risk_after_rule1 board sd de).rank ≤ (risk_after_rule2 history board sd de).rank ∧
    (risk_after_rule2 history board sd de).rank ≤ (risk_after_rule3 history board sd de).rank ∧
    (risk_after_rule3 history board sd de).rank ≤ (risk_after_rule4 history board sd de).rank ∧
    ((get_ticket_progress board sd de).on_track = false →
      (forecast_sprint history board sd de).risk_level = RiskLevel.HIGH) := by
  refine ⟨rank_le_rule1 _ _, rank_le_rule2 _ _, rank_le_rule3 _ _ _, rank_le_rule4 _ _ _ _, ?_⟩
  intro h
  have h1 : risk_after_rule1 board sd de = RiskLevel.HIGH := by
    unfold risk_after_rule1 rule1
    simp [h]
  have h2 : risk_after_rule2 history board sd de = RiskLevel.HIGH := by
    unfold risk_after_rule2
    rw [h1, rule2_high]
  have h3 : risk_after_rule3 history board sd de = RiskLevel.HIGH := by
    unfold risk_after_rule3
    rw [h2, rule3_high]
  have h4 : risk_after_rule4 history board sd de = RiskLevel.HIGH := by
    unfold risk_after_rule4
    rw [h3, rule4_high]
  show risk_after_rule4 history board sd de = RiskLevel.HIGH
  exact h4

/-- C4 witness board: 1 `Done` of 10 tickets. -/
def c4_board : List Ticket :=
  ⟨"T-1", "", "Done", "", [], 0, "", ""⟩ ::
    List.replicate 9 ⟨"T-2", "", "In Progress", "", [], 0, "", ""⟩

/-- C4 witness: a concrete behind-schedule input (1 Done of 10 tickets at the
sprint midpoint) is not on track, and the cascade indeed ends at HIGH. -/
theorem C4_witness :
    (get_ticket_progress c4_board 14 7).on_track = false ∧
    (forecast_sprint [] c4_board 14 7).risk_level = RiskLevel.HIGH := by
  have hot : (get_ticket_progress c4_board 14 7).on_track = false := by
    have hdone : c4_board.countP (fun t => t.status == "Done") = 1 := by decide
    have hlen : c4_board.length = 10 := by decide
    simp only [get_ticket_progress, completion_rate_raw, expected_rate_raw, hdone, hlen]
    norm_num
  exact ⟨hot, (C4_risk_cascade [] c4_board 14 7).2.2.2.2 hot⟩

/-! ## C7 -/

/-- C7: a discovered ticket's status is always one of Done / In Progress; it
is Done exactly when the lowercased concatenation of its commit messages
contains a done signal or a feature signal (so otherwise it is In Progress);
and the concrete PROJ-1 scenario with messages "fix: resolve PROJ-1 bug" and
"feat: add PROJ-1 export" is inferred Done. -/
theorem C7_status_inference (messages : List String) :
    (infer_status messages = "Done" ∨ infer_status messages = "In Progress") ∧
    (infer_status messages = "Done" ↔
      ((done_signals.any fun s =>
          strContains (pyLower (String.mk (joinWithSpace messages))) s)
        || (feat_signals.any fun s =>
          strContains (pyLower (String.mk (joinWithSpace messages))) s)) = true) ∧
    infer_status ["fix: resolve PROJ-1 bug", "feat: add PROJ-1 export"] = "Done" := by
  refine ⟨infer_status_done_or_in_progress messages, ?_, by decide⟩
  simp only [infer_status, Bool.or_eq_true]
  split_ifs with h1 h2 h3 <;> simp_all

/-- C7 witness: on the concrete scenario the done/feat condition evaluates to
true and the theorem's characterization yields status Done. -/
theorem C7_witness :
    infer_status ["fix: resolve PROJ-1 bug", "feat: add PROJ-1 export"] = "Done" :=
  (C7_status_inference ["fix: resolve PROJ-1 bug", "feat: add PROJ-1 export"]).2.1.mpr
    (by decide)

/-! ## C9 -/

/-- Folding the velocity accumulator ignores commits with unparseable dates,
so it equals the fold over the parseable sublist. -/
theorem foldl_velocityStep_filter (l : List Commit) :
    ∀ acc, l.foldl velocityStep acc =
      (l.filter fun c => (strptimeISO c.date).isSome).foldl velocityStep acc := by
  induction l with
  | nil => intro acc; rfl
  | cons c t ih =>
    intro acc
    by_cases h : (strptimeISO c.date).isSome
    · simp [List.filter_cons, h, ih]
    · have hnone : strptimeISO c.date = none := by
        cases hs : strptimeISO c.date with
        | none => rfl
        | some dt => rw [hs] at h; simp at h
      simp [List.filter_cons, h, velocityStep, hnone, ih]

/-- The late-commit count is unchanged by restricting to parseable dates:
unparseable dates never count as late. -/
theorem late_count_filter (l : List Commit) :
    late_commit_count l =
      late_commit_count (l.filter fun c => (strptimeISO c.date).isSome) := by
  unfold late_commit_count
  induction l with
  | nil => rfl
  | cons c t ih =>
    cases h : strptimeISO c.date with
    | none => simp [List.countP_cons, List.filter_cons, h, ih]
    | some dt => simp [List.countP_cons, List.filter_cons, h, ih]

/-- C9: commits whose date does not parse are excluded from the per-day and
per-author breakdowns and from the off-hours count (all three agree with the
computation on the parseable sublist), while `total_commits` still counts
every commit; the embedding is total, so no error is raised. -/
theorem C9_unparseable_dates (history : List Commit) (de : Int) :
    (get_commit_velocity history de).total_commits = history.length ∧
    (get_commit_velocity history de).daily_breakdown =
      (get_commit_velocity (history.filter fun c => (strptimeISO c.date).isSome) de).daily_breakdown ∧
    (get_commit_velocity history de).author_breakdown =
      (get_commit_velocity (history.filter fun c => (strptimeISO c.date).isSome) de).author_breakdown ∧
    late_commit_count history =
      late_commit_count (history.filter fun c => (strptimeISO c.date).isSome) := by
  refine ⟨rfl, ?_, ?_, late_count_filter history⟩ <;>
    simp [get_commit_velocity, foldl_velocityStep_filter history ([], [])]

/-! ## C10 -/

/-- Membership in the stable descending insertion. -/
theorem mem_insertDesc (t u : Ticket) (l : List Ticket) :
    t ∈ insertByLastSeenDesc u l ↔ t = u ∨ t ∈ l := by
  induction l with
  | nil => simp [insertByLastSeenDesc]
  | cons v vs ih =>
    simp only [insertByLastSeenDesc]
    split_ifs <;> (simp [ih]; try tauto)

/-- Sorting the board does not change its members. -/
theorem mem_sortDesc (t : Ticket) (l : List Ticket) :
    t ∈ sortByLastSeenDesc l ↔ t ∈ l := by
  suffices h : ∀ (l acc : List Ticket),
      t ∈ l.foldl (fun acc u => insertByLastSeenDesc u acc) acc ↔ t ∈ acc ∨ t ∈ l by
    simpa [sortByLastSeenDesc] using h l []
  intro l
  induction l with
  | nil => intro acc; simp
  | cons u us ih =>
    intro acc
    rw [List.foldl_cons, ih]
    simp [mem_insertDesc]
    tauto

/-- C10: every ticket on a discovered board has status Done or In Progress —
Todo is never produced — and consequently the Velocity Forecaster's `todo`
count on such a board is 0. -/
theorem C10_no_todo_status (commits : List Commit) :
    (∀ t ∈ discover_tickets commits, t.status = "Done" ∨ t.status = "In Progress") ∧
    (∀ sd de : Int, (get_ticket_progress (discover_tickets commits) sd de).todo = 0) := by
  have hmem : ∀ t ∈ discover_tickets commits,
      t.status = "Done" ∨ t.status = "In Progress" := by
    intro t ht
    simp only [discover_tickets] at ht
    rw [mem_sortDesc] at ht
    rcases List.mem_map.mp ht with ⟨id, _, rfl⟩
    exact infer_status_done_or_in_progress _
  refine ⟨hmem, fun sd de => ?_⟩
  show List.countP (fun t => t.status == "Todo") (discover_tickets commits) = 0
  rw [List.countP_eq_zero]
  intro t ht
  rcases hmem t ht with h | h <;> simp [h]

/-- C10 witness commit: one commit whose message mentions PROJ-1 with only a
WIP signal. -/
def c10_commits : List Commit :=
  [⟨"abc1234def", "alice", "2024-01-01T10:00:00Z", "wip PROJ-1", ""⟩]

/-- C10 witness: the concrete discovered board has a ticket, its status is one
of the two allowed values, and the todo count is 0. -/
theorem C10_witness :
    build_ticket c10_commits "PROJ-1" ∈ discover_tickets c10_commits ∧
    ((build_ticket c10_commits "PROJ-1").status = "Done" ∨
      (build_ticket c10_commits "PROJ-1").status = "In Progress") ∧
    (get_ticket_progress (discover_tickets c10_commits) 14 7).todo = 0 :=
  ⟨by decide, (C10_no_todo_status c10_commits).1 _ (by decide),
    (C10_no_todo_status c10_commits).2 14 7⟩

/-! ## C1 (corrected) -/

/-- C1 counterexample: on the input "GH-123" — which contains exactly one
ticket-shaped token, of the form GH-digits, and no other ticket token —
extraction does keep "GH-123" verbatim (via the generic uppercase pattern)
but ALSO produces the normalized id "#123" (the GH pattern captures only the
digits, which are digit-only and get the `#` prefix), so the result is not
the singleton {"GH-123"}. -/
theorem C1_counterexample :
    extract_tickets "GH-123" = ["GH-123", "#123"] ∧
    "#123" ∈ extract_tickets "GH-123" ∧ ("#123" : String) ≠ "GH-123" :=
  ⟨by decide, by decide, by decide⟩

/-- C1 (amended): for any text on which the four pattern scans find exactly
one GH-digits token `GH-<ds>` (found verbatim by the uppercase pattern, as
digits by the GH pattern) and nothing else, extraction returns exactly the
two-element set { GH-<ds>, #<ds> }: the verbatim token plus the normalized
digit capture. -/
theorem C1_gh_token_extraction (text ds : String)
    (h1 : findJira text = ["GH-" ++ ds]) (h2 : findIssue text = [])
    (h3 : findGH text = [ds]) (h4 : findFIX text = [])
    (hds : pyIsDigitStr ds = true) :
    ("GH-" ++ ds) ∈ extract_tickets text ∧
    ("#" ++ ds) ∈ extract_tickets text ∧
    ∀ x ∈ extract_tickets text, x = "GH-" ++ ds ∨ x = "#" ++ ds := by
  have htl : ("GH-" ++ ds).toList = 'G' :: 'H' :: '-' :: ds.toList := rfl
  have hG : 'G'.isDigit = false := by decide
  have hnd : pyIsDigitStr ("GH-" ++ ds) = false := by
    simp [pyIsDigitStr, htl, hG]
  have hne : ("#" ++ ds : String) ≠ ("GH-" ++ ds) := by
    intro h
    have hdata : ('#' :: ds.toList) = ('G' :: 'H' :: '-' :: ds.toList) := by
      have hto : ("#" ++ ds).toList = ("GH-" ++ ds).toList := by rw [h]
      exact hto
    simp at hdata
  have hext : extract_tickets text = ["GH-" ++ ds, "#" ++ ds] := by
    simp only [extract_tickets, h1, h2, h3, h4, List.append_nil, List.nil_append,
      List.cons_append, List.map_cons, List.map_nil, hnd, hds, Bool.false_eq_true,
      if_false, if_true]
    simp [dedupFirst, dedupAux, hne]
  rw [hext]
  refine ⟨by simp, by simp, ?_⟩
  intro x hx
  simpa using hx

/-- C1 witness: the amended statement instantiated at the text "GH-123". -/
theorem C1_witness :
    (findJira "GH-123" = ["GH-" ++ "123"] ∧ findIssue "GH-123" = [] ∧
      findGH "GH-123" = ["123"] ∧ findFIX "GH-123" = [] ∧
      pyIsDigitStr "123" = true) ∧
    ("GH-" ++ "123") ∈ extract_tickets "GH-123" ∧
    ("#" ++ "123") ∈ extract_tickets "GH-123" ∧
    ∀ x ∈ extract_tickets "GH-123", x = "GH-" ++ "123" ∨ x = "#" ++ "123" :=
  ⟨⟨by decide, by decide, by decide, by decide, by decide⟩,
    C1_gh_token_extraction "GH-123" "123" (by decide) (by decide) (by decide)
      (by decide) (by decide)⟩

/-! ## C2 (corrected) -/

/-- C2 counterexample commit: a single commit with a standard unified diff
touching one file, which therefore appears in both the `--- a/` and `+++ b/`
header lines. -/
def c2_commit : Commit :=
  ⟨"abc1234def", "alice", "2024-01-01T10:00:00Z", "update",
    "--- a/foo.py\n+++ b/foo.py\n@@ -1 +1 @@\n+x = 1"⟩

/-- C2 counterexample: the file `foo.py` is changed in exactly one commit
(N = 1), but its hotspot count is 2, not 1 — the scan counts each matching
header line, and a standard diff lists the file twice. -/
theorem C2_counterexample :
    files_changed c2_commit.diff = ["foo.py", "foo.py"] ∧
    hotspot_count [c2_commit] "foo.py" = 2 ∧
    hotspot_count [c2_commit] "foo.py" ≠ 1 :=
  ⟨by decide, by decide, by decide⟩

/-- C2 (amended): a file is counted once per matching unified-diff header
line (`--- a/<path>` or `+++ b/<path>`), not once per commit; since a
standard diff lists a changed file in both headers, a file whose diffs list
it twice per commit across N commits has hotspot count exactly 2N. -/
theorem C2_hotspot_counts_header_lines (history : List Commit) (f : String)
    (h : ∀ c ∈ history, (files_changed c.diff).count f = 2) :
    hotspot_count history f = 2 * history.length := by
  unfold hotspot_count all_changed_files
  induction history with
  | nil => rfl
  | cons c t ih =>
    rw [List.flatMap_cons, List.count_append, h c (by simp),
      ih (fun c2 hc2 => h c2 (by simp [hc2]))]
    simp [List.length_cons]
    ring

/-- C2 witness: the amended statement instantiated at the one-commit batch. -/
theorem C2_witness :
    (∀ c ∈ [c2_commit], (files_changed c.diff).count "foo.py" = 2) ∧
    hotspot_count [c2_commit] "foo.py" = 2 * List.length [c2_commit] :=
  ⟨by decide, C2_hotspot_counts_header_lines [c2_commit] "foo.py" (by decide)⟩

/-! ## C3 (corrected) -/

/-- The debt item a message containing only the "hotfix" signal emits. -/
def hotfix_item (c : Commit) : DebtItem :=
  ⟨"hotfix", 3, c.message, c.author, pyTake c.hash 7⟩

/-- If a commit's message contains no debt signal other than possibly
"hotfix", its message-level items are exactly the hotfix item or nothing. -/
theorem msg_items_pure_hotfix (c : Commit)
    (hother : ∀ s ∈ (["todo", "workaround", "temp", "deprecated", "hardcode"] : List String),
      strContains (pyLower c.message) s = false) :
    msg_debt_items c =
      if strContains (pyLower c.message) "hotfix" then [hotfix_item c] else [] := by
  have h1 : strContains (pyLower c.message) "todo" = false := hother "todo" (by simp)
  have h2 : strContains (pyLower c.message) "workaround" = false := hother "workaround" (by simp)
  have h3 : strContains (pyLower c.message) "temp" = false := hother "temp" (by simp)
  have h4 : strContains (pyLower c.message) "deprecated" = false := hother "deprecated" (by simp)
  have h5 : strContains (pyLower c.message) "hardcode" = false := hother "hardcode" (by simp)
  simp only [msg_debt_items, DEBT_SIGNALS, List.filterMap_cons, h1, h2, h3, h4, h5,
    Bool.false_eq_true, if_false, List.filterMap_nil]
  split_ifs <;> rfl

/-- A line containing no debt signal emits no inline items. -/
theorem line_items_none (c : Commit) (l : String)
    (h : ∀ sw ∈ DEBT_SIGNALS, strContains (pyLower l) sw.1 = false) :
    line_debt_items c l = [] := by
  have h1 : strContains (pyLower l) "todo" = false := h ("todo", 2) (by simp [DEBT_SIGNALS])
  have h2 : strContains (pyLower l) "hotfix" = false := h ("hotfix", 3) (by simp [DEBT_SIGNALS])
  have h3 : strContains (pyLower l) "workaround" = false :=
    h ("workaround", 3) (by simp [DEBT_SIGNALS])
  have h4 : strContains (pyLower l) "temp" = false := h ("temp", 1) (by simp [DEBT_SIGNALS])
  have h5 : strContains (pyLower l) "deprecated" = false :=
    h ("deprecated", 2) (by simp [DEBT_SIGNALS])
  have h6 : strContains (pyLower l) "hardcode" = false :=
    h ("hardcode", 2) (by simp [DEBT_SIGNALS])
  simp [line_debt_items, DEBT_SIGNALS, h1, h2, h3, h4, h5, h6]

/-- Under the purity hypotheses, the batch's debt items are exactly one
hotfix item per commit whose message contains "hotfix". -/
theorem debt_items_pure_hotfix (history : List Commit)
    (hother : ∀ c ∈ history,
      ∀ s ∈ (["todo", "workaround", "temp", "deprecated", "hardcode"] : List String),
      strContains (pyLower c.message) s = false)
    (hdiff : ∀ c ∈ history, ∀ l ∈ added_lines c.diff, ∀ sw ∈ DEBT_SIGNALS,
      strContains (pyLower l) sw.1 = false) :
    debt_items history =
      (history.filter fun c => strContains (pyLower c.message) "hotfix").map hotfix_item := by
  unfold debt_items
  induction history with
  | nil => rfl
  | cons c t ih =>
    have hc : commit_debt_items c =
        if strContains (pyLower c.message) "hotfix" then [hotfix_item c] else [] := by
      unfold commit_debt_items
      rw [msg_items_pure_hotfix c (hother c (by simp))]
      have hlines : (added_lines c.diff).flatMap (line_debt_items c) = [] := by
        rw [List.flatMap_eq_nil_iff]
        intro l hl
        exact line_items_none c l (hdiff c (by simp) l hl)
      rw [hlines, List.append_nil]
    rw [List.flatMap_cons, hc, List.filter_cons,
      ih (fun c2 hc2 => hother c2 (by simp [hc2])) (fun c2 hc2 => hdiff c2 (by simp [hc2]))]
    by_cases hcf : strContains (pyLower c.message) "hotfix" = true
    · simp [hcf]
    · simp [hcf]

/-- Summing the weights of the mapped hotfix items. -/
theorem hotfix_items_weight_sum (l : List Commit) :
    ((l.map hotfix_item).map (fun i => i.weight)).sum = 3 * l.length := by
  induction l with
  | nil => rfl
  | cons c t ih =>
    simp only [List.map_cons, List.sum_cons, ih, List.length_cons,
      show (hotfix_item c).weight = 3 from rfl]
    ring

/-- The signals of the mapped hotfix items are all "hotfix". -/
theorem hotfix_items_signals (l : List Commit) :
    ((l.map hotfix_item).map fun i => i.signal) = List.replicate l.length "hotfix" := by
  induction l with
  | nil => rfl
  | cons c t ih => simp [ih, hotfix_item, List.replicate_succ]

/-- C3 (amended): a batch whose messages contain "hotfix" in exactly 3
commits and no other debt signal, with no debt signal on any added diff line
and no file listed as changed in 2 or more header lines, scores exactly 9 and
yields exactly one TECH_DEBT ticket (for "hotfix", priority High) and no
REFACTOR tickets.  (The original threshold "no file with >= 3 changes" is not
enough: a file with exactly 2 header lines still triggers a REFACTOR ticket,
see the counterexample.) -/
theorem C3_hotfix_batch (history : List Commit)
    (hcount : (history.filter fun c => strContains (pyLower c.message) "hotfix").length = 3)
    (hother : ∀ c ∈ history,
      ∀ s ∈ (["todo", "workaround", "temp", "deprecated", "hardcode"] : List String),
      strContains (pyLower c.message) s = false)
    (hdiff : ∀ c ∈ history, ∀ l ∈ added_lines c.diff, ∀ sw ∈ DEBT_SIGNALS,
      strContains (pyLower l) sw.1 = false)
    (hhot : ∀ fpath : String, hotspot_count history fpath ≤ 1) :
    calculate_debt_score history = 9 ∧
    generate_refactor_tickets history =
      (9,
        [{ title := "Tech Debt: Address \"hotfix\" markers (3 occurrences)"
           priority := "High"
           description := "Found 3 instances of \"hotfix\" patterns in recent commits. These should be resolved to prevent debt accumulation."
           ty := "TECH_DEBT" }]) := by
  have hdeb : debt_items history =
      (history.filter fun c => strContains (pyLower c.message) "hotfix").map hotfix_item :=
    debt_items_pure_hotfix history hother hdiff
  have hw : total_weight history = 9 := by
    unfold total_weight
    rw [hdeb, hotfix_items_weight_sum, hcount]
  have hpen : hotspot_penalty history = 0 := by
    unfold hotspot_penalty
    have hzero : (hotspot_files history).countP (fun f => hotspot_count history f ≥ 3) = 0 := by
      rw [List.countP_eq_zero]
      intro f _
      have := hhot f
      simp only [ge_iff_le, decide_eq_true_eq]
      omega
    rw [hzero]
  have hscore : calculate_debt_score history = 9 := by
    unfold calculate_debt_score
    rw [hw, hpen]
  have hsl : signal_list history = List.replicate 3 "hotfix" := by
    unfold signal_list
    rw [hdeb, hotfix_items_signals, hcount]
  have hsc : signal_count history "hotfix" = 3 := by
    unfold signal_count
    rw [hsl]
    decide
  have hhotnone : refactor_tickets_hotspots history = [] := by
    unfold refactor_tickets_hotspots
    have hfil : (hotspot_files history).filter (fun f => hotspot_count history f ≥ 2) = [] := by
      rw [List.filter_eq_nil_iff]
      intro f _
      have := hhot f
      simp only [ge_iff_le, decide_eq_true_eq]
      omega
    rw [hfil]
    rfl
  have hsig : refactor_tickets_signals history =
      [{ title := "Tech Debt: Address \"hotfix\" markers (3 occurrences)"
         priority := "High"
         description := "Found 3 instances of \"hotfix\" patterns in recent commits. These should be resolved to prevent debt accumulation."
         ty := "TECH_DEBT" }] := by
    unfold refactor_tickets_signals signal_count
    rw [hsl]
    decide
  refine ⟨hscore, ?_⟩
  unfold generate_refactor_tickets
  rw [hscore, hhotnone, hsig]
  rfl

/-- C3 witness batch: three commits whose messages contain "hotfix" and no
other signal, with empty diffs. -/
def c3_commits : List Commit :=
  [⟨"aaaa1111", "al", "2024-01-01T10:00:00Z", "hotfix alpha", ""⟩,
   ⟨"bbbb2222", "bo", "2024-01-02T10:00:00Z", "hotfix beta", ""⟩,
   ⟨"cccc3333", "cy", "2024-01-03T10:00:00Z", "hotfix gamma", ""⟩]

/-- C3 witness: the amended statement instantiated at the concrete batch. -/
theorem C3_witness :
    ((c3_commits.filter fun c => strContains (pyLower c.message) "hotfix").length = 3) ∧
    calculate_debt_score c3_commits = 9 ∧
    generate_refactor_tickets c3_commits =
      (9,
        [{ title := "Tech Debt: Address \"hotfix\" markers (3 occurrences)"
           priority := "High"
           description := "Found 3 instances of \"hotfix\" patterns in recent commits. These should be resolved to prevent debt accumulation."
           ty := "TECH_DEBT" }]) := by
  have hhot : ∀ fpath : String, hotspot_count c3_commits fpath ≤ 1 := by
    intro fpath
    have h0 : all_changed_files c3_commits = [] := rfl
    unfold hotspot_count
    rw [h0]
    simp
  exact ⟨by decide,
    (C3_hotfix_batch c3_commits (by decide) (by decide) (by decide) hhot).1,
    (C3_hotfix_batch c3_commits (by decide) (by decide) (by decide) hhot).2⟩

/-- C3 counterexample batch: the same three hotfix commits, but the first has
a standard diff touching `util.py` — one commit, two header lines, hotspot
count 2 but below the claimed threshold 3. -/
def c3_cex_commits : List Commit :=
  [⟨"aaaa1111", "al", "2024-01-01T10:00:00Z", "hotfix alpha",
     "--- a/util.py\n+++ b/util.py\n@@ -1 +1 @@\n z = 1"⟩,
   ⟨"bbbb2222", "bo", "2024-01-02T10:00:00Z", "hotfix beta", ""⟩,
   ⟨"cccc3333", "cy", "2024-01-03T10:00:00Z", "hotfix gamma", ""⟩]

/-- C3 counterexample: messages contain "hotfix" in exactly 3 commits, no
debt signal appears on any added diff line, and no file reaches the claimed
hotspot threshold 3 — yet besides the score of 9 and the one TECH_DEBT
ticket, a REFACTOR ticket for `util.py` (2 header lines) is also generated,
refuting "no REFACTOR tickets". -/
theorem C3_counterexample :
    ((c3_cex_commits.filter fun c => strContains (pyLower c.message) "hotfix").length = 3) ∧
    (∀ c ∈ c3_cex_commits, ∀ l ∈ added_lines c.diff, ∀ sw ∈ DEBT_SIGNALS,
      strContains (pyLower l) sw.1 = false) ∧
    hotspot_count c3_cex_commits "util.py" = 2 ∧
    calculate_debt_score c3_cex_commits = 9 ∧
    ((generate_refactor_tickets c3_cex_commits).2.filter
      (fun t => t.ty == "REFACTOR")).length = 1 :=
  ⟨by decide, by decide, by decide, by decide, by decide⟩

end AgileFlow
